import Mathlib

/-!
Verification development for the Emergency Services Locator API.

The definitions below are a shallow embedding of the Python sources:

* `app/utils/common.py`   — `extract_location_and_service` (intent extractor);
* `app/db/models.py`      — the `Service` and `UserQuery` pydantic schemas;
* `app/config.py`         — `Settings.DEFAULT_SEARCH_RADIUS_KM`;
* `app/api/routes.py`     — the `get_help` handler (help resolution pipeline);
* `app/services/location_service.py` — modelled by the abstract geocoding
  outcome fed to the pipeline (success dict, `None`, or raised exception).

Machine reals (`float`) are modelled by `ℚ`; the external geodesic distance
function (`geopy.distance.geodesic(...).km`) and the database `search_nearby`
call are parameters of the pipeline.  Text inputs in the repository are ASCII,
so Python's `str.lower` is modelled by the ASCII `Char.toLower`.
-/

/-- Whitespace test used to model Python `str.split()` (no arguments) and
`str.strip()`; the repository's query strings only contain these characters. -/
def isSpaceChar (c : Char) : Bool :=
  c = ' ' || c = '\t' || c = '\n' || c = '\r'

/-- Accumulator-style worker for `splitWs`: splits a character list on runs of
whitespace, discarding empty fields, exactly as Python `str.split()` does. -/
def splitWsAux : List Char → List Char → List (List Char)
  | [], acc => if acc = [] then [] else [acc.reverse]
  | c :: cs, acc =>
    if isSpaceChar c then
      if acc = [] then splitWsAux cs [] else acc.reverse :: splitWsAux cs []
    else
      splitWsAux cs (c :: acc)

/-- Model of Python `text.split()`: whitespace-run tokenisation with empty
tokens dropped. -/
def splitWs (s : List Char) : List (List Char) :=
  splitWsAux s []

/-- Model of Python `" ".join(words)`. -/
def joinSpace : List (List Char) → List Char
  | [] => []
  | [w] => w
  | w :: ws => w ++ ' ' :: joinSpace ws

/-- Fuelled worker for `replaceAll`: at every position, if the pattern is a
prefix of the rest of the text, drop it and emit the replacement, then resume
after the match (left-to-right, non-overlapping) — Python `str.replace`.
The fuel is the length of the text, which suffices because every step of the
source algorithm consumes at least one character. -/
def replaceAllFuel (pat rep : List Char) : Nat → List Char → List Char
  | 0, s => s
  | _ + 1, [] => []
  | n + 1, c :: cs =>
    if List.isPrefixOf pat (c :: cs) then
      rep ++ replaceAllFuel pat rep n (List.drop (pat.length - 1) cs)
    else
      c :: replaceAllFuel pat rep n cs

/-- Model of Python `s.replace(pat, rep)` (replace all occurrences,
left-to-right, non-overlapping). -/
def replaceAll (pat rep s : List Char) : List Char :=
  replaceAllFuel pat rep s.length s

/-- Model of Python `s.strip()`: remove leading and trailing whitespace. -/
def stripChars (s : List Char) : List Char :=
  ((s.dropWhile isSpaceChar).reverse.dropWhile isSpaceChar).reverse

/-- Fixed service-keyword lexicon of `extract_location_and_service`
(`app/utils/common.py`), in source order. -/
def known_services : List (List Char) :=
  ["ambulance", "doctor", "hospital", "medical", "clinic", "nurse"].map String.data

/-- Shallow embedding of `extract_location_and_service` from
`app/utils/common.py`: lower-case, whitespace-tokenise, take the first lexicon
entry (in lexicon order) that occurs among the tokens as the service hint,
drop the tokens equal to it, rejoin with single spaces, delete the substrings
`"need"` and `"help"` (in that order), and strip surrounding whitespace. -/
def extract_location_and_service (text : String) : String × Option String :=
  let words := splitWs (text.data.map Char.toLower)
  let found := known_services.find? (fun s => words.contains s)
  let words2 := match found with
    | some f => words.filter (fun w => w ≠ f)
    | none => words
  let possible_location :=
    stripChars (replaceAll "help".data [] (replaceAll "need".data [] (joinSpace words2)))
  (String.mk possible_location, found.map String.mk)

/-- Shallow embedding of the service record dictionaries that
`search_nearby` (`app/db/postgres.py`) returns to the pipeline; the fields are
those of the `Service` schema in `app/db/models.py`.  Coordinates are `ℚ`. -/
structure ServiceRec where
  name : String := ""
  type : String := ""
  location : String := ""
  address : String := ""
  mobile_no : String := ""
  timings : String := ""
  cost : String := ""
  available : Bool := true
  contact : String := ""
  latitude : ℚ := 0
  longitude : ℚ := 0
deriving DecidableEq

/-- Shallow embedding of the `UserQuery` pydantic schema
(`app/db/models.py`): `service_type : Optional[List[str]]`,
`urgency : Optional[str] = "Medium"`. -/
structure UserQuery where
  query : String
  latitude : Option ℚ := none
  longitude : Option ℚ := none
  service_type : Option (List String) := none
  location_mentioned : Option String := none
  urgency : Option String := some "Medium"
deriving DecidableEq

/-- Embedding of `Settings.DEFAULT_SEARCH_RADIUS_KM` from `app/config.py`. -/
def default_search_radius_km : ℚ := 10

/-- Outcome of one call to `geocode_location`
(`app/services/location_service.py`) as observed by the pipeline: a result
dictionary, `None` (no match), or a raised exception (timeout, transport
error, non-2xx — all re-raised as a generic exception by the adapter). -/
inductive GeoOutcome where
  | ok (latitude longitude : ℚ) (display_name : String)
  | noResult
  | failure
deriving DecidableEq

/-- Runtime value held by `service_type` inside `get_help` after intent
resolution: the extraction path stores a plain string (line 78 of
`app/api/routes.py` assigns the extractor's hint, bypassing the schema type),
while the explicit path keeps the request's non-empty list. -/
inductive ResolvedType where
  | str (s : String)
  | list (l : List String)
deriving DecidableEq

/-- Failure modes of the `get_help` handler: the two explicit
`HTTPException(400)` validations, and the uncaught `AttributeError` raised at
`service_type.lower()` when `service_type` is a list (surfaced as a server
error). -/
inductive PipelineError where
  | missingQuery
  | missingCoordinates
  | typeError
deriving DecidableEq

/-- Shape of the JSON object returned by `get_help` on both the empty-result
and the success paths; `message` is present (`some`) exactly on the
empty-result path.  The source key is spelled `understood_service`. -/
structure HelpResponse where
  original_query : String
  understood_service : String
  target_location : String
  target_coordinates : ℚ × ℚ
  user_coordinates : ℚ × ℚ
  urgency : String
  radius_km : ℚ
  nearby_services : List (ServiceRec × ℚ)
  message : Option String
deriving DecidableEq

deriving instance DecidableEq for Except

/-- ASCII lower-casing of a string, modelling Python `str.lower()` on the
repository's ASCII data. -/
def lowerS (s : String) : String :=
  String.mk (s.data.map Char.toLower)

/-- Contiguous-substring scan underlying `containsSub`: the pattern is a
prefix of some suffix of the text. -/
def infixAt (pat : List Char) : List Char → Bool
  | [] => pat = []
  | c :: cs => List.isPrefixOf pat (c :: cs) || infixAt pat cs

/-- Model of the Python substring test `needle in hay`. -/
def containsSub (needle hay : String) : Bool :=
  infixAt needle.data hay.data

/-- The `service_keywords` dictionary literal of `get_help`
(`app/api/routes.py`, lines 110–119), in source order. -/
def service_keywords : List (String × List String) :=
  [("hospital", ["hospital", "medical", "healthcare", "clinic", "emergency"]),
   ("doctor", ["doctor", "physician", "medical", "clinic", "healthcare"]),
   ("ambulance", ["ambulance", "emergency", "medical transport"]),
   ("automobile", ["automobile", "car", "mechanic", "garage", "vehicle", "repair", "auto"]),
   ("pharmacy", ["pharmacy", "medicine", "medical", "chemist", "drug store"]),
   ("food", ["food", "restaurant", "cafe", "catering", "meal", "hotel"]),
   ("police", ["police", "security", "law enforcement", "thief"]),
   ("fire", ["fire", "firefighter", "emergency", "fire extinguisher"])]

/-- The `matching_keywords` accumulation of `get_help` (lines 121–125): for
every category whose name or keywords occur as a lower-cased substring of the
resolved type, append the category's keywords and then the category name. -/
def matchingKeywords (service_type : String) : List String :=
  (service_keywords.filter
      (fun ck => (ck.1 :: ck.2).any (fun kw => containsSub (lowerS kw) (lowerS service_type)))).foldr
    (fun ck acc => (ck.2 ++ [ck.1]) ++ acc) []

/-- Keep test of the keyword pass of the type filter (lines 128–131): some
matching keyword is a lower-cased substring of the record's type label. -/
def kwMatch (kws : List String) (r : ServiceRec) : Bool :=
  kws.any (fun kw => containsSub (lowerS kw) (lowerS r.type))

/-- Keep test of the substring pass of the type filter (lines 133–136 and the
lines 138–142 fallback): the resolved type is a lower-cased substring of the
record's type label. -/
def subMatch (service_type : String) (r : ServiceRec) : Bool :=
  containsSub (lowerS service_type) (lowerS r.type)

/-- Shallow embedding of the type-filter stage of `get_help`
(`app/api/routes.py`, lines 108–144), for the string-valued `service_type`
case: skipped entirely unless `service_type` is truthy and not `"unknown"`;
otherwise a keyword-expansion pass (or a direct substring pass when no
category matched), followed by a substring-pass retry when the first pass
kept nothing. -/
def typeFilter (service_type : String) (results : List ServiceRec) : List ServiceRec :=
  if service_type ≠ "" ∧ service_type ≠ "unknown" then
    let mks := matchingKeywords service_type
    let type_filtered :=
      if mks ≠ [] then results.filter (kwMatch mks)
      else results.filter (subMatch service_type)
    if type_filtered = [] ∧ service_type ≠ "unknown" then
      results.filter (subMatch service_type)
    else type_filtered
  else results

/-- Urgency resolution of `get_help` (line 84): `user_query.urgency or
"Medium"`, where Python treats `None` and the empty string as falsy. -/
def resolveUrgency (uq : UserQuery) : String :=
  match uq.urgency with
  | some u => if u = "" then "Medium" else u
  | none => "Medium"

/-- Intent resolution of `get_help` (lines 75–83): a truthy (non-empty)
explicit `service_type` list is used verbatim together with the request's
`location_mentioned`; otherwise the extractor runs on the query text and its
hint (or `None`, rendered `"unknown"` by `or 'unknown'` on line 82) and
location candidate are used. -/
def resolveIntent (uq : UserQuery) : ResolvedType × Option String :=
  match uq.service_type with
  | some (t :: ts) => (ResolvedType.list (t :: ts), uq.location_mentioned)
  | _ =>
    let e := extract_location_and_service uq.query
    (ResolvedType.str (e.2.getD "unknown"), some e.1)

/-- Target-location resolution of `get_help` (lines 91–103): default to the
user's coordinates and the label `"your current location"`; geocode a truthy
mentioned location, overriding the defaults only on a truthy result; a raised
geocoding exception is caught and ignored. -/
def resolveTarget (geo : String → GeoOutcome) (user : ℚ × ℚ) (mentioned : Option String) :
    (ℚ × ℚ) × String :=
  match mentioned with
  | some l =>
    if l = "" then (user, "your current location")
    else
      match geo l with
      | GeoOutcome.ok la lo dn => ((la, lo), dn)
      | GeoOutcome.noResult => (user, "your current location")
      | GeoOutcome.failure => (user, "your current location")
  | none => (user, "your current location")

/-- Urgency-to-radius mapping of `get_help` (lines 146–151). -/
def radiusFor (urgency : String) : ℚ :=
  if urgency = "High" then 15
  else if urgency = "Low" then 5
  else default_search_radius_km

/-- Radius-filter stage of `get_help` (lines 153–157): keep the records whose
(unrounded) distance to the target is at most the radius. -/
def radiusFilter (dist : ℚ × ℚ → ℚ × ℚ → ℚ) (tgt : ℚ × ℚ) (radius : ℚ)
    (l : List ServiceRec) : List ServiceRec :=
  l.filter (fun r => decide (dist tgt (r.latitude, r.longitude) ≤ radius))

/-- Integer core of Python `round(x, 2)`: the integer nearest to `100 * x`,
with ties broken to the even neighbour (Python's `round` tie rule), computed
from the numerator and denominator with integer arithmetic only so that it
evaluates by kernel reduction.  Here `q` is `⌊100 x⌋` (floor division by the
positive denominator) and `r / den` is the fractional part, compared with
`1 / 2` by cross-multiplication. -/
def roundHalfEven100 (x : ℚ) : ℤ :=
  let n := 100 * x.num
  let d : ℤ := (x.den : ℤ)
  let q := n / d
  let r := n - q * d
  if 2 * r < d then q
  else if d < 2 * r then q + 1
  else if q % 2 = 0 then q else q + 1

/-- Model of Python `round(x, 2)`. -/
def round2 (x : ℚ) : ℚ :=
  mkRat (roundHalfEven100 x) 100

/-- Distance annotation of `get_help` (lines 176–180): attach
`round(geodesic(target, record).km, 2)` to every surviving record. -/
def annotateDist (dist : ℚ × ℚ → ℚ × ℚ → ℚ) (tgt : ℚ × ℚ) (l : List ServiceRec) :
    List (ServiceRec × ℚ) :=
  l.map (fun r => (r, round2 (dist tgt (r.latitude, r.longitude))))

/-- Comparison used by the final sort of `get_help` (line 183): ascending
`distance_km`. -/
def distLE (a b : ServiceRec × ℚ) : Prop := a.2 ≤ b.2

instance : DecidableRel distLE := fun a b => inferInstanceAs (Decidable (a.2 ≤ b.2))

instance : IsTotal (ServiceRec × ℚ) distLE := ⟨fun a b => le_total a.2 b.2⟩

instance : IsTrans (ServiceRec × ℚ) distLE := ⟨fun _ _ _ h1 h2 => le_trans h1 h2⟩

/-- Model of `filtered.sort(key=lambda x: x['distance_km'])` (line 183):
Python `list.sort` is a stable ascending sort, which insertion sort with a
non-strict comparison reproduces exactly. -/
def sortNearby (l : List (ServiceRec × ℚ)) : List (ServiceRec × ℚ) :=
  List.insertionSort distLE l

/-- The explanatory message of the empty-result response (line 172). -/
def noResultsMessage (service_type : String) (radius_km : ℚ) : String :=
  "No " ++ service_type ++ " services found within " ++ toString radius_km ++
    "km of the target location. Try increasing the search radius or selecting a different service type."

/-- Response construction of `get_help` past validation and intent resolution,
for the string-valued `service_type` case (lines 91–194): resolve the target,
fetch up to 100 nearby records, filter by type then by radius, and return
either the structured empty result or the distance-annotated, distance-sorted
list. -/
def buildResponse (search : ℚ → ℚ → ℕ → List ServiceRec) (geo : String → GeoOutcome)
    (dist : ℚ × ℚ → ℚ × ℚ → ℚ) (uq : UserQuery) (user_lat user_lon : ℚ)
    (service_type : String) (mentioned : Option String) : HelpResponse :=
  let tl := resolveTarget geo (user_lat, user_lon) mentioned
  let urgency := resolveUrgency uq
  let results := search tl.1.1 tl.1.2 100
  let radius_km := radiusFor urgency
  let filtered := radiusFilter dist tl.1 radius_km (typeFilter service_type results)
  if filtered = [] then
    { original_query := uq.query, understood_service := service_type,
      target_location := tl.2, target_coordinates := tl.1,
      user_coordinates := (user_lat, user_lon), urgency := urgency,
      radius_km := radius_km, nearby_services := [],
      message := some (noResultsMessage service_type radius_km) }
  else
    { original_query := uq.query, understood_service := service_type,
      target_location := tl.2, target_coordinates := tl.1,
      user_coordinates := (user_lat, user_lon), urgency := urgency,
      radius_km := radius_km,
      nearby_services := sortNearby (annotateDist dist tl.1 filtered),
      message := none }

/-- Shallow embedding of the `get_help` handler (`app/api/routes.py`,
lines 60–194).  `search` models `search_nearby` (called with `top_k=100`),
`geo` the geocoding adapter, `dist` the geodesic kilometre distance.  The
explicit-list `service_type` path reaches `service_type.lower()` on a Python
list inside the type filter and raises `AttributeError` (the store fetch that
the source performs before that point is effect-free, so the model elides it
on this path). -/
def get_help (search : ℚ → ℚ → ℕ → List ServiceRec) (geo : String → GeoOutcome)
    (dist : ℚ × ℚ → ℚ × ℚ → ℚ) (uq : UserQuery) : Except PipelineError HelpResponse :=
  if uq.query = "" then Except.error PipelineError.missingQuery
  else
    match uq.latitude, uq.longitude with
    | some user_lat, some user_lon =>
      match resolveIntent uq with
      | (ResolvedType.list _, _) => Except.error PipelineError.typeError
      | (ResolvedType.str st, mentioned) =>
        Except.ok (buildResponse search geo dist uq user_lat user_lon st mentioned)
    | _, _ => Except.error PipelineError.missingCoordinates

/-- Lower-case and whitespace-trim a type label; support for the spec-side
exact-match predicate below. -/
def trimLower (s : String) : String :=
  String.mk (stripChars (s.data.map Char.toLower))

/-- Keep condition stated by the specification for the type filter (claim C1):
a candidate is kept exactly when its type label, lower-cased and
whitespace-trimmed, equals one of the resolved type labels. -/
def specExactTypeKeep (resolved : List String) (r : ServiceRec) : Bool :=
  resolved.any (fun t => decide (trimLower r.type = trimLower t))

/-- Pointwise keep condition actually implemented by the type filter of
`get_help` for a string-valued non-sentinel resolved type: when some keyword
category matches the resolved type and some fetched candidate passes the
keyword-expansion test, a candidate is kept by that test; otherwise a
candidate is kept when the resolved type is a case-insensitive substring of
its type label. -/
def typeFilterKeep (service_type : String) (results : List ServiceRec) (r : ServiceRec) : Bool :=
  if matchingKeywords service_type = [] then subMatch service_type r
  else if results.any (kwMatch (matchingKeywords service_type)) then
    kwMatch (matchingKeywords service_type) r
  else subMatch service_type r

/-- Candidate record used by the C1 artifacts: type label `"medical"`. -/
def c1rec : ServiceRec :=
  { name := "City Clinic", type := "medical", latitude := 1, longitude := 1 }

/-- Request used by the C2 witness. -/
def c2req : UserQuery :=
  { query := "i need a doctor", latitude := some 0, longitude := some 0 }

/-- Response of the pipeline on `c2req` with an empty store. -/
def c2resp : HelpResponse :=
  { original_query := "i need a doctor", understood_service := "doctor",
    target_location := "your current location", target_coordinates := (0, 0),
    user_coordinates := (0, 0), urgency := "Medium", radius_km := 10,
    nearby_services := [], message := some (noResultsMessage "doctor" 10) }

/-- Candidate record used by the C3 counterexample: type label `"hospital"`. -/
def c3rec : ServiceRec :=
  { name := "General Hospital", type := "hospital", latitude := 2, longitude := 2 }

/-- Candidate record used by the C4 witness. -/
def c4rec : ServiceRec :=
  { name := "City Hospital", type := "hospital", latitude := 1, longitude := 1 }

/-- Store stub used by the C4 witness: one hospital record. -/
def c4search : ℚ → ℚ → ℕ → List ServiceRec := fun _ _ _ => [c4rec]

/-- Geocoder stub used by the C4 witness: no match. -/
def c4geo : String → GeoOutcome := fun _ => GeoOutcome.noResult

/-- Distance stub used by the C4 witness: constant 3 km. -/
def c4dist : ℚ × ℚ → ℚ × ℚ → ℚ := fun _ _ => 3

/-- Request used by the C4 witness. -/
def c4req : UserQuery :=
  { query := "i need hospital", latitude := some 0, longitude := some 0 }

/-- Response of the pipeline on `c4req` with `c4search`, `c4geo`, `c4dist`. -/
def c4resp : HelpResponse :=
  { original_query := "i need hospital", understood_service := "hospital",
    target_location := "your current location", target_coordinates := (0, 0),
    user_coordinates := (0, 0), urgency := "Medium", radius_km := 10,
    nearby_services := [(c4rec, 3)], message := none }

/-- Request used by the C5 witness. -/
def c5req : UserQuery :=
  { query := "i need ambulance fast", latitude := some 0, longitude := some 0 }

/-- Request used by the C7 witness. -/
def c7req : UserQuery :=
  { query := "i need hospital", latitude := some 5, longitude := some 6 }

/-- Response of the pipeline on `c7req` with an empty store. -/
def c7resp : HelpResponse :=
  { original_query := "i need hospital", understood_service := "hospital",
    target_location := "your current location", target_coordinates := (5, 6),
    user_coordinates := (5, 6), urgency := "Medium", radius_km := 10,
    nearby_services := [], message := some (noResultsMessage "hospital" 10) }

/-- Request used by the C8 witness: explicit urgency `"High"`. -/
def c8req : UserQuery :=
  { query := "i need hospital", latitude := some 1, longitude := some 1,
    urgency := some "High" }

/-- Response of the pipeline on `c8req` with an empty store. -/
def c8resp : HelpResponse :=
  { original_query := "i need hospital", understood_service := "hospital",
    target_location := "your current location", target_coordinates := (1, 1),
    user_coordinates := (1, 1), urgency := "High", radius_km := 15,
    nearby_services := [], message := some (noResultsMessage "hospital" 15) }

/-- Candidate record used by the C10 witness: type label matching no keyword. -/
def c10rec : ServiceRec :=
  { name := "City Zoo", type := "zoo", latitude := 3, longitude := 3 }

/-- The rational `x * 100` written over the numerator and denominator of
`x`. -/
lemma hundred_mul_eq (x : ℚ) : x * 100 = ((100 * x.num : ℤ) : ℚ) / ((x.den : ℕ) : ℚ) := by
  push_cast
  rw [mul_comm, mul_div_assoc, Rat.num_div_den]

/-- The integer quotient computed by `roundHalfEven100` is `⌊x * 100⌋`. -/
lemma floor_hundred (x : ℚ) : 100 * x.num / (x.den : ℤ) = ⌊x * 100⌋ := by
  rw [hundred_mul_eq x, Rat.floor_intCast_div_natCast]

/-- Any nearest rounding lands at or below the ceiling. -/
lemma roundHalfEven100_le_ceil (x : ℚ) : roundHalfEven100 x ≤ ⌈x * 100⌉ := by
  have hq := floor_hundred x
  have hd0 : (0 : ℤ) < (x.den : ℤ) := by exact_mod_cast x.den_pos
  have key : ¬ 2 * (100 * x.num - 100 * x.num / (x.den : ℤ) * (x.den : ℤ)) < (x.den : ℤ) →
      100 * x.num / (x.den : ℤ) + 1 ≤ ⌈x * 100⌉ := by
    intro h1
    have hr : 100 * x.num % (x.den : ℤ) = 100 * x.num - 100 * x.num / (x.den : ℤ) * (x.den : ℤ) := by
      rw [Int.emod_def]
      ring
    have hnn : 0 ≤ 100 * x.num - 100 * x.num / (x.den : ℤ) * (x.den : ℤ) := by
      rw [← hr]
      exact Int.emod_nonneg _ (by omega)
    have hstep : 100 * x.num / (x.den : ℤ) * (x.den : ℤ) + 1 ≤ 100 * x.num := by omega
    have hlt : ((100 * x.num / (x.den : ℤ) : ℤ) : ℚ) < x * 100 := by
      rw [hundred_mul_eq x, lt_div_iff₀ (by exact_mod_cast hd0)]
      have : (100 * x.num / (x.den : ℤ)) * (x.den : ℤ) < 100 * x.num := by omega
      exact_mod_cast this
    have hlt2 : ((100 * x.num / (x.den : ℤ) : ℤ) : ℚ) < (⌈x * 100⌉ : ℚ) :=
      lt_of_lt_of_le hlt (Int.le_ceil (x * 100))
    have : 100 * x.num / (x.den : ℤ) < ⌈x * 100⌉ := by exact_mod_cast hlt2
    omega
  simp only [roundHalfEven100]
  split_ifs with h1 h2 h3
  · rw [hq]; exact Int.floor_le_ceil _
  · exact key h1
  · rw [hq]; exact Int.floor_le_ceil _
  · exact key h1

/-- Rounding to two decimals cannot push a value past a bound that is itself
exact at two decimals. -/
lemma round2_le_of_le {d r : ℚ} (z : ℤ) (hz : (z : ℚ) = r * 100) (h : d ≤ r) :
    round2 d ≤ r := by
  have h1 : d * 100 ≤ (z : ℚ) := by
    rw [hz]; exact mul_le_mul_of_nonneg_right h (by norm_num)
  have h2 : ⌈d * 100⌉ ≤ z := Int.ceil_le.mpr h1
  have h3 : roundHalfEven100 d ≤ z := le_trans (roundHalfEven100_le_ceil _) h2
  have h4 : ((roundHalfEven100 d : ℤ) : ℚ) ≤ (z : ℚ) := by exact_mod_cast h3
  rw [round2, Rat.mkRat_eq_div]
  rw [show (((100 : ℕ) : ℚ)) = (100 : ℚ) by norm_num]
  rw [div_le_iff₀ (by norm_num : (0 : ℚ) < 100)]
  rw [hz] at h4
  linarith

/-- Every radius the pipeline can use (15, 5, or the configured default 10) is
exact at two decimals, so rounded distances within the radius stay within it. -/
lemma round2_le_radiusFor {d : ℚ} (u : String) (h : d ≤ radiusFor u) :
    round2 d ≤ radiusFor u := by
  unfold radiusFor at h ⊢
  split_ifs at h ⊢ with h1 h2
  · exact round2_le_of_le 1500 (by norm_num) h
  · exact round2_le_of_le 500 (by norm_num) h
  · exact round2_le_of_le 1000 (by norm_num [default_search_radius_km]) h

/-- The final sort of the pipeline produces an ascending list. -/
lemma sortNearby_sorted (l : List (ServiceRec × ℚ)) :
    List.Pairwise distLE (sortNearby l) :=
  List.sorted_insertionSort distLE l

/-- Sorting does not change membership. -/
lemma mem_sortNearby {e : ServiceRec × ℚ} {l : List (ServiceRec × ℚ)} :
    e ∈ sortNearby l ↔ e ∈ l :=
  (List.perm_insertionSort distLE l).mem_iff

/-- Sorting an annotated list is empty only for the empty list. -/
lemma sortNearby_eq_nil {l : List (ServiceRec × ℚ)} (h : sortNearby l = []) : l = [] := by
  have hp : List.Perm (sortNearby l) l := List.perm_insertionSort distLE l
  rw [h] at hp
  exact hp.symm.eq_nil

/-- Stability of one ordered insertion with respect to an equal-distance
fibre: the inserted element lands in front of the fibre exactly when its own
distance matches, and the fibre's order is untouched. -/
lemma filter_key_orderedInsert (d : ℚ) (x : ServiceRec × ℚ) :
    ∀ L : List (ServiceRec × ℚ),
      (List.orderedInsert distLE x L).filter (fun e => decide (e.2 = d))
        = (if x.2 = d then [x] else []) ++ L.filter (fun e => decide (e.2 = d))
  | [] => by
    by_cases hx : x.2 = d <;> simp [List.orderedInsert, List.filter_cons, hx]
  | b :: L => by
    by_cases hxb : distLE x b
    · by_cases hx : x.2 = d <;> by_cases hb : b.2 = d <;>
        simp [List.orderedInsert, if_pos hxb, List.filter_cons, hx, hb]
    · have hlt : b.2 < x.2 := lt_of_not_le hxb
      by_cases hb : b.2 = d
      · have hx : x.2 ≠ d := by
          intro hcontra
          rw [hb] at hlt
          rw [hcontra] at hlt
          exact lt_irrefl d hlt
        simp [List.orderedInsert, if_neg hxb, List.filter_cons, hb, hx,
          filter_key_orderedInsert d x L]
      · simp [List.orderedInsert, if_neg hxb, List.filter_cons, hb,
          filter_key_orderedInsert d x L]

/-- Stability of the pipeline's sort: within one equal-distance fibre, the
sorted list preserves the order of the input list. -/
lemma filter_key_sortNearby (d : ℚ) :
    ∀ L : List (ServiceRec × ℚ),
      (sortNearby L).filter (fun e => decide (e.2 = d))
        = L.filter (fun e => decide (e.2 = d))
  | [] => rfl
  | x :: L => by
    have h1 : sortNearby (x :: L) = List.orderedInsert distLE x (sortNearby L) := rfl
    rw [h1, filter_key_orderedInsert, filter_key_sortNearby d L]
    by_cases hx : x.2 = d <;> simp [List.filter_cons, hx]

/-- Projections of `buildResponse` that do not depend on the survivor list:
both response shapes carry the same envelope. -/
lemma buildResponse_proj (search : ℚ → ℚ → ℕ → List ServiceRec) (geo : String → GeoOutcome)
    (dist : ℚ × ℚ → ℚ × ℚ → ℚ) (uq : UserQuery) (user_lat user_lon : ℚ)
    (st : String) (mentioned : Option String) :
    (buildResponse search geo dist uq user_lat user_lon st mentioned).original_query = uq.query
    ∧ (buildResponse search geo dist uq user_lat user_lon st mentioned).understood_service = st
    ∧ (buildResponse search geo dist uq user_lat user_lon st mentioned).target_coordinates
        = (resolveTarget geo (user_lat, user_lon) mentioned).1
    ∧ (buildResponse search geo dist uq user_lat user_lon st mentioned).target_location
        = (resolveTarget geo (user_lat, user_lon) mentioned).2
    ∧ (buildResponse search geo dist uq user_lat user_lon st mentioned).user_coordinates
        = (user_lat, user_lon)
    ∧ (buildResponse search geo dist uq user_lat user_lon st mentioned).urgency
        = resolveUrgency uq
    ∧ (buildResponse search geo dist uq user_lat user_lon st mentioned).radius_km
        = radiusFor (resolveUrgency uq) := by
  simp only [buildResponse]
  split <;> exact ⟨rfl, rfl, rfl, rfl, rfl, rfl, rfl⟩

/-- The `nearby_services` field of `buildResponse` is, on both paths, the
sorted annotation of the type- and radius-filtered fetch (the empty path is
the degenerate case of an empty survivor list). -/
lemma buildResponse_nearby (search : ℚ → ℚ → ℕ → List ServiceRec) (geo : String → GeoOutcome)
    (dist : ℚ × ℚ → ℚ × ℚ → ℚ) (uq : UserQuery) (user_lat user_lon : ℚ)
    (st : String) (mentioned : Option String) :
    (buildResponse search geo dist uq user_lat user_lon st mentioned).nearby_services
      = sortNearby (annotateDist dist (resolveTarget geo (user_lat, user_lon) mentioned).1
          (radiusFilter dist (resolveTarget geo (user_lat, user_lon) mentioned).1
            (radiusFor (resolveUrgency uq))
            (typeFilter st
              (search (resolveTarget geo (user_lat, user_lon) mentioned).1.1
                (resolveTarget geo (user_lat, user_lon) mentioned).1.2 100)))) := by
  simp only [buildResponse]
  split
  · next hnil => rw [hnil]; rfl
  · rfl

/-- Inversion of a successful `get_help` run: validation passed, intent
resolution produced a string-valued type, and the response is the one built
by `buildResponse`. -/
lemma get_help_ok (search : ℚ → ℚ → ℕ → List ServiceRec) (geo : String → GeoOutcome)
    (dist : ℚ × ℚ → ℚ × ℚ → ℚ) (uq : UserQuery) (resp : HelpResponse)
    (hok : get_help search geo dist uq = Except.ok resp) :
    ∃ user_lat user_lon st mentioned,
      uq.latitude = some user_lat ∧ uq.longitude = some user_lon
      ∧ resolveIntent uq = (ResolvedType.str st, mentioned)
      ∧ resp = buildResponse search geo dist uq user_lat user_lon st mentioned := by
  unfold get_help at hok
  by_cases hq : uq.query = ""
  · rw [if_pos hq] at hok
    exact absurd hok (by simp)
  · rw [if_neg hq] at hok
    cases hla : uq.latitude with
    | none => rw [hla] at hok; simp at hok
    | some user_lat =>
      cases hlo : uq.longitude with
      | none => rw [hla, hlo] at hok; simp at hok
      | some user_lon =>
        rw [hla, hlo] at hok
        rcases hri : resolveIntent uq with ⟨rt, m⟩
        rw [hri] at hok
        cases rt with
        | list l => simp at hok
        | str st =>
          simp only [Except.ok.injEq] at hok
          exact ⟨user_lat, user_lon, st, m, rfl, rfl, rfl, hok.symm⟩

/-- Claim C1, counterexample: the spec says the type filter keeps a candidate
if and only if its lower-cased, trimmed type label exactly equals a resolved
label.  The code keeps the record with type `"medical"` for resolved type
`"hospital"` (keyword expansion), although the exact-match predicate rejects
it, so the claimed equivalence is false. -/
theorem c1_counterexample :
    typeFilter "hospital" [c1rec] = [c1rec]
    ∧ specExactTypeKeep ["hospital"] c1rec = false := by
  decide

/-- Claim C1, amended: for a truthy, non-sentinel resolved type, the type
filter keeps exactly the candidates passing `typeFilterKeep` — keyword
expansion over the matched categories when that pass keeps anything, and a
case-insensitive substring test against the resolved type otherwise. -/
theorem c1_amended (st : String) (results : List ServiceRec)
    (h1 : st ≠ "") (h2 : st ≠ "unknown") :
    typeFilter st results = results.filter (typeFilterKeep st results) := by
  simp only [typeFilter, if_pos (And.intro h1 h2)]
  by_cases hmk : matchingKeywords st = []
  · simp only [hmk, ne_eq, not_true_eq_false, if_false]
    have hsame : results.filter (subMatch st) = results.filter (typeFilterKeep st results) :=
      List.filter_congr (fun x _ => by simp [typeFilterKeep, hmk])
    split_ifs <;> exact hsame
  · simp only [ne_eq, hmk, not_false_eq_true, if_true]
    by_cases hkw : results.filter (kwMatch (matchingKeywords st)) = []
    · rw [if_pos (And.intro hkw h2)]
      have hany : results.any (kwMatch (matchingKeywords st)) = false := by
        rw [← Bool.not_eq_true, List.any_eq_true]
        rintro ⟨x, hx, hpx⟩
        exact (List.filter_eq_nil_iff.mp hkw x hx) hpx
      exact List.filter_congr (fun x _ => by simp [typeFilterKeep, hmk, hany])
    · rw [if_neg (fun h => hkw h.1)]
      have hany : results.any (kwMatch (matchingKeywords st)) = true := by
        rcases List.exists_mem_of_ne_nil _ hkw with ⟨x, hx⟩
        rcases List.mem_filter.mp hx with ⟨hx1, hx2⟩
        exact List.any_eq_true.mpr ⟨x, hx1, hx2⟩
      exact List.filter_congr (fun x _ => by simp [typeFilterKeep, hmk, hany])

/-- Claim C1, witness for the amended theorem at resolved type `"hospital"`
and a single `"medical"`-typed candidate. -/
theorem c1_amended_witness :
    (("hospital" : String) ≠ "" ∧ ("hospital" : String) ≠ "unknown")
    ∧ typeFilter "hospital" [c1rec] = [c1rec].filter (typeFilterKeep "hospital" [c1rec]) :=
  ⟨⟨by decide, by decide⟩, c1_amended "hospital" [c1rec] (by decide) (by decide)⟩

/-- Claim C3, counterexample: with resolved type `"unknown"` the code skips
the type filter, so a `"hospital"`-typed record survives even though its type
label is not literally `"unknown"`, contradicting the claimed equivalence. -/
theorem c3_counterexample :
    typeFilter "unknown" [c3rec] = [c3rec] ∧ c3rec.type ≠ "unknown" := by
  decide

/-- Claim C3, amended: when the resolved service type is the `"unknown"`
sentinel, the type-filter stage is bypassed entirely and every fetched
candidate survives it. -/
theorem c3_amended (results : List ServiceRec) :
    typeFilter "unknown" results = results := by
  simp [typeFilter]

/-- Claim C9, counterexample: on the spec's own example input the extractor
does not return the claimed location candidate `"i an near central park"`;
deleting the substring `"need"` leaves both surrounding spaces, so the code
produces `"i  an near central park"` (two spaces). -/
theorem c9_counterexample :
    (extract_location_and_service "I need an ambulance near Central Park").1
        ≠ "i an near central park"
    ∧ extract_location_and_service "I need an ambulance near Central Park"
        = ("i  an near central park", some "ambulance") := by
  decide

/-- Claim C9, amended: the extractor lower-cases and whitespace-tokenizes the
text, picks the first lexicon entry (in lexicon order) occurring among the
tokens as the service hint, removes its occurrences, strips the substrings
`"need"` and `"help"` from the rejoined remainder and trims; on the example
input it returns hint `"ambulance"` and location candidate
`"i  an near central park"` (with the double space left by substring
deletion). -/
theorem c9_amended :
    extract_location_and_service "I need an ambulance near Central Park"
      = ("i  an near central park", some "ambulance") := by
  decide

/-- Claim C10: when at least one keyword category matches the resolved type
but the keyword-expansion pass keeps no candidate, the type filter retries
with the direct case-insensitive substring test and returns its result. -/
theorem c10_keyword_fallback (st : String) (results : List ServiceRec)
    (h1 : st ≠ "") (h2 : st ≠ "unknown")
    (h3 : matchingKeywords st ≠ [])
    (h4 : results.filter (kwMatch (matchingKeywords st)) = []) :
    typeFilter st results = results.filter (subMatch st) := by
  simp only [typeFilter, if_pos (And.intro h1 h2), ne_eq, h3, not_false_eq_true, if_true]
  rw [if_pos (And.intro h4 h2)]

/-- Claim C10, witness at resolved type `"fire"` and a `"zoo"`-typed
candidate that no fire keyword matches. -/
theorem c10_witness :
    (("fire" : String) ≠ "" ∧ ("fire" : String) ≠ "unknown"
      ∧ matchingKeywords "fire" ≠ []
      ∧ [c10rec].filter (kwMatch (matchingKeywords "fire")) = [])
    ∧ typeFilter "fire" [c10rec] = [c10rec].filter (subMatch "fire") :=
  ⟨⟨by decide, by decide, by decide, by decide⟩,
   c10_keyword_fallback "fire" [c10rec] (by decide) (by decide) (by decide) (by decide)⟩

/-- Claim C6 (code bug): a request carrying an explicit service-type list
reaches `service_type.lower()` on a Python list inside the type filter, so
`get_help` raises `AttributeError` for every store, geocoder and distance
function instead of completing and echoing the list. -/
theorem c6_code_evaluation (search : ℚ → ℚ → ℕ → List ServiceRec)
    (geo : String → GeoOutcome) (dist : ℚ × ℚ → ℚ × ℚ → ℚ) :
    get_help search geo dist
        { query := "need hospital", latitude := some 18, longitude := some 72,
          service_type := some ["hospital"] }
      = Except.error PipelineError.typeError := by
  rfl

/-- Claim C8: in every successful response the radius is determined exactly
by the resolved urgency — `"High"` gives 15, `"Low"` gives 5, anything else
the configured default — and the configured default is 10 km. -/
theorem c8_radius_mapping (search : ℚ → ℚ → ℕ → List ServiceRec)
    (geo : String → GeoOutcome) (dist : ℚ × ℚ → ℚ × ℚ → ℚ)
    (uq : UserQuery) (resp : HelpResponse)
    (hok : get_help search geo dist uq = Except.ok resp) :
    resp.radius_km
      = (if resp.urgency = "High" then 15
         else if resp.urgency = "Low" then 5 else default_search_radius_km)
    ∧ default_search_radius_km = 10 := by
  obtain ⟨la, lo, st, m, _, _, _, hresp⟩ := get_help_ok _ _ _ _ _ hok
  obtain ⟨_, _, _, _, _, hu, hr⟩ := buildResponse_proj search geo dist uq la lo st m
  subst hresp
  rw [hr, hu]
  exact ⟨rfl, rfl⟩

/-- Claim C8, witness: a request with urgency `"High"` against an empty store
yields a response with radius 15. -/
theorem c8_witness :
    c8resp.radius_km
      = (if c8resp.urgency = "High" then 15
         else if c8resp.urgency = "Low" then 5 else default_search_radius_km)
    ∧ default_search_radius_km = 10 :=
  c8_radius_mapping (fun _ _ _ => []) (fun _ => GeoOutcome.noResult) (fun _ _ => 0)
    c8req c8resp (by decide)

/-- Claim C2, counterexample: with an EMPTY store (hence an empty type
vocabulary) and no explicit service type, the claim demands the no-match
sentinel `"unknown"`; the code never consults the vocabulary and resolves the
lexicon hint `"ambulance"` verbatim. -/
theorem c2_counterexample :
    (get_help (fun _ _ _ => []) (fun _ => GeoOutcome.failure) (fun _ _ => 0)
          { query := "I need an ambulance", latitude := some 0, longitude := some 0 }).toOption.map
        (fun r => r.understood_service) = some "ambulance"
    ∧ ("ambulance" : String) ≠ "unknown" := by
  decide

/-- Claim C2, amended: when the request carries no (truthy) explicit service
type, the resolved type echoed in the response is the intent extractor's
lexicon hint taken verbatim, or the sentinel `"unknown"` when no hint was
found — independent of the store contents, with no similarity matching
against the store's type vocabulary. -/
theorem c2_amended (search : ℚ → ℚ → ℕ → List ServiceRec) (geo : String → GeoOutcome)
    (dist : ℚ × ℚ → ℚ × ℚ → ℚ) (uq : UserQuery) (resp : HelpResponse)
    (hst : uq.service_type = none ∨ uq.service_type = some [])
    (hok : get_help search geo dist uq = Except.ok resp) :
    resp.understood_service = ((extract_location_and_service uq.query).2).getD "unknown" := by
  obtain ⟨la, lo, st, m, _, _, hri, hresp⟩ := get_help_ok _ _ _ _ _ hok
  have hri2 : resolveIntent uq
      = (ResolvedType.str (((extract_location_and_service uq.query).2).getD "unknown"),
         some (extract_location_and_service uq.query).1) := by
    rcases hst with h | h <;> simp [resolveIntent, h]
  rw [hri2] at hri
  have hst2 : ((extract_location_and_service uq.query).2).getD "unknown" = st := by
    have h1 := congrArg Prod.fst hri
    simpa using h1
  subst hresp
  rw [(buildResponse_proj search geo dist uq la lo st m).2.1, ← hst2]

/-- Claim C2, witness for the amended theorem: on `c2req` (query mentioning a
doctor, no explicit type) the response echoes the extractor's hint. -/
theorem c2_amended_witness :
    c2resp.understood_service
      = ((extract_location_and_service c2req.query).2).getD "unknown" :=
  c2_amended (fun _ _ _ => []) (fun _ => GeoOutcome.noResult) (fun _ _ => 0)
    c2req c2resp (Or.inl rfl) (by decide)

/-- Claim C5, counterexample: the claim quantifies over every help request
whose geocoding call fails, but a request that also carries an explicit
service-type list crashes in the type filter (`AttributeError`), so the
pipeline does not return a success response there. -/
theorem c5_counterexample :
    get_help (fun _ _ _ => []) (fun _ => GeoOutcome.failure) (fun _ _ => 0)
        { query := "help", latitude := some 19, longitude := some 73,
          service_type := some ["hospital"], location_mentioned := some "paris" }
      = Except.error PipelineError.typeError := by
  decide

/-- Claim C5, amended: for every validated request without an explicit
service-type list (those crash in the type filter for an unrelated reason),
when every geocoding call fails the pipeline catches the failure and returns
a success response whose target coordinates are the user's own coordinates
and whose target label is `"your current location"`; the failure is never
surfaced. -/
theorem c5_amended (search : ℚ → ℚ → ℕ → List ServiceRec) (geo : String → GeoOutcome)
    (dist : ℚ × ℚ → ℚ × ℚ → ℚ) (uq : UserQuery) (ulat ulon : ℚ)
    (hq : uq.query ≠ "") (hla : uq.latitude = some ulat) (hlo : uq.longitude = some ulon)
    (hst : uq.service_type = none ∨ uq.service_type = some [])
    (hgeo : ∀ s, geo s = GeoOutcome.failure) :
    (get_help search geo dist uq).toOption.map
        (fun r => (r.target_coordinates, r.target_location))
      = some ((ulat, ulon), "your current location") := by
  have htgt : ∀ mentioned, resolveTarget geo (ulat, ulon) mentioned
      = ((ulat, ulon), "your current location") := by
    intro mentioned
    cases mentioned with
    | none => rfl
    | some l =>
      by_cases hl : l = ""
      · simp [resolveTarget, hl]
      · simp [resolveTarget, hl, hgeo l]
  have hri : resolveIntent uq
      = (ResolvedType.str (((extract_location_and_service uq.query).2).getD "unknown"),
         some (extract_location_and_service uq.query).1) := by
    rcases hst with h | h <;> simp [resolveIntent, h]
  unfold get_help
  rw [if_neg hq, hla, hlo, hri]
  dsimp only
  obtain ⟨_, _, htc, htl, _, _, _⟩ :=
    buildResponse_proj search geo dist uq ulat ulon
      (((extract_location_and_service uq.query).2).getD "unknown")
      (some (extract_location_and_service uq.query).1)
  simp [Except.toOption, htc, htl, htgt]

/-- Claim C5, witness for the amended theorem: a failing geocoder and an
extraction-path request produce a success response targeting the user's own
coordinates. -/
theorem c5_amended_witness :
    (get_help (fun _ _ _ => []) (fun _ => GeoOutcome.failure) (fun _ _ => 0) c5req).toOption.map
        (fun r => (r.target_coordinates, r.target_location))
      = some ((0, 0), "your current location") :=
  c5_amended (fun _ _ _ => []) (fun _ => GeoOutcome.failure) (fun _ _ => 0)
    c5req 0 0 (by decide) rfl rfl (Or.inl rfl) (fun _ => rfl)

/-- The empty-result message is never the empty string. -/
lemma noResultsMessage_ne_empty (st : String) (r : ℚ) : noResultsMessage st r ≠ "" := by
  intro h
  have h2 := congrArg String.data h
  simp [noResultsMessage, String.data_append] at h2

/-- Claim C7: whenever a valid request completes with zero surviving
candidates, the response carries an empty `nearby_services`, a non-empty
human-readable message, and the success envelope (original query, the user's
coordinates, the resolved urgency, the urgency-derived radius). -/
theorem c7_empty_result (search : ℚ → ℚ → ℕ → List ServiceRec) (geo : String → GeoOutcome)
    (dist : ℚ × ℚ → ℚ × ℚ → ℚ) (uq : UserQuery) (ulat ulon : ℚ) (resp : HelpResponse)
    (hla : uq.latitude = some ulat) (hlo : uq.longitude = some ulon)
    (hok : get_help search geo dist uq = Except.ok resp)
    (hempty : resp.nearby_services = []) :
    resp.message.getD "" ≠ ""
    ∧ resp.original_query = uq.query
    ∧ resp.user_coordinates = (ulat, ulon)
    ∧ resp.urgency = resolveUrgency uq
    ∧ resp.radius_km = radiusFor resp.urgency := by
  obtain ⟨la, lo, st, m, hla2, hlo2, hri, hresp⟩ := get_help_ok _ _ _ _ _ hok
  rw [hla] at hla2
  rw [hlo] at hlo2
  injection hla2 with h1
  injection hlo2 with h2
  subst h1
  subst h2
  subst hresp
  have hnb := buildResponse_nearby search geo dist uq ulat ulon st m
  rw [hnb] at hempty
  have hfil : radiusFilter dist (resolveTarget geo (ulat, ulon) m).1 (radiusFor (resolveUrgency uq))
      (typeFilter st
        (search (resolveTarget geo (ulat, ulon) m).1.1 (resolveTarget geo (ulat, ulon) m).1.2 100))
      = [] := by
    simpa [annotateDist] using sortNearby_eq_nil hempty
  have hmsg : (buildResponse search geo dist uq ulat ulon st m).message
      = some (noResultsMessage st (radiusFor (resolveUrgency uq))) := by
    simp only [buildResponse]
    rw [if_pos hfil]
  obtain ⟨hq, hs, htc, htl, huc, hu, hr⟩ := buildResponse_proj search geo dist uq ulat ulon st m
  refine ⟨?_, hq, huc, hu, ?_⟩
  · rw [hmsg]
    exact noResultsMessage_ne_empty st (radiusFor (resolveUrgency uq))
  · rw [hr, hu]

/-- Claim C7, witness: a query against an empty store yields the structured
empty result with its message. -/
theorem c7_witness :
    c7resp.message.getD "" ≠ ""
    ∧ c7resp.original_query = c7req.query
    ∧ c7resp.user_coordinates = (5, 6)
    ∧ c7resp.urgency = resolveUrgency c7req
    ∧ c7resp.radius_km = radiusFor c7resp.urgency :=
  c7_empty_result (fun _ _ _ => []) (fun _ => GeoOutcome.noResult) (fun _ _ => 0)
    c7req 5 6 c7resp rfl rfl (by decide) rfl

/-- Claim C4: in every response the `nearby_services` list is sorted in
ascending order of `distance_km`; each `distance_km` is the distance from the
target coordinates rounded to two decimal places; each `distance_km` is at
most the response's `radius_km`; and each equal-distance fibre preserves the
store's iteration order (the filtered fetch order). -/
theorem c4_sorted_bounded (search : ℚ → ℚ → ℕ → List ServiceRec) (geo : String → GeoOutcome)
    (dist : ℚ × ℚ → ℚ × ℚ → ℚ) (uq : UserQuery) (resp : HelpResponse)
    (hok : get_help search geo dist uq = Except.ok resp) :
    List.Pairwise (fun a b => a.2 ≤ b.2) resp.nearby_services
    ∧ (∀ e ∈ resp.nearby_services,
        e.2 = round2 (dist resp.target_coordinates (e.1.latitude, e.1.longitude))
        ∧ e.2 ≤ resp.radius_km)
    ∧ (∀ d : ℚ,
        resp.nearby_services.filter (fun e => decide (e.2 = d))
          = (annotateDist dist resp.target_coordinates
              (radiusFilter dist resp.target_coordinates resp.radius_km
                (typeFilter resp.understood_service
                  (search resp.target_coordinates.1 resp.target_coordinates.2 100)))).filter
              (fun e => decide (e.2 = d))) := by
  obtain ⟨la, lo, st, m, _, _, _, hresp⟩ := get_help_ok _ _ _ _ _ hok
  obtain ⟨hq, hs, htc, htl, huc, hu, hr⟩ := buildResponse_proj search geo dist uq la lo st m
  have hnb := buildResponse_nearby search geo dist uq la lo st m
  subst hresp
  rw [hnb, hs, htc, hr]
  refine ⟨sortNearby_sorted _, ?_, ?_⟩
  · intro e he
    rw [mem_sortNearby] at he
    obtain ⟨r, hrmem, hre⟩ := List.mem_map.mp he
    subst hre
    simp only [radiusFilter] at hrmem
    have hd : dist (resolveTarget geo (la, lo) m).1 (r.latitude, r.longitude)
        ≤ radiusFor (resolveUrgency uq) :=
      of_decide_eq_true (List.mem_filter.mp hrmem).2
    exact ⟨rfl, round2_le_radiusFor (resolveUrgency uq) hd⟩
  · intro d
    exact filter_key_sortNearby d _

/-- Claim C4, witness: one hospital record at constant distance 3 km within
the default radius 10 km. -/
theorem c4_witness :
    List.Pairwise (fun a b => a.2 ≤ b.2) c4resp.nearby_services
    ∧ (∀ e ∈ c4resp.nearby_services,
        e.2 = round2 (c4dist c4resp.target_coordinates (e.1.latitude, e.1.longitude))
        ∧ e.2 ≤ c4resp.radius_km)
    ∧ (∀ d : ℚ,
        c4resp.nearby_services.filter (fun e => decide (e.2 = d))
          = (annotateDist c4dist c4resp.target_coordinates
              (radiusFilter c4dist c4resp.target_coordinates c4resp.radius_km
                (typeFilter c4resp.understood_service
                  (c4search c4resp.target_coordinates.1 c4resp.target_coordinates.2 100)))).filter
              (fun e => decide (e.2 = d))) :=
  c4_sorted_bounded c4search c4geo c4dist c4req c4resp (by decide)
